import Mathlib

/-!
# BeeVision experiment driver: formal model

A shallow embedding of the experiment-driver logic of the three BeeVision
notebooks (DenseNet201, EfficientNet-B0, ResNet-18): dataset cleaning and
splitting, hyperparameter-grid enumeration, the per-trial try/except sweep,
best-configuration selection, persistence, and the retrain transform guard.
Numbers are rationals; an undefined (NaN) metric is `Option.none`; a raised
exception is `Except.error`.
-/

set_option autoImplicit false

namespace BeeVision

/-! ### Data model -/

/-- One grid point of the hyperparameter search: the fields iterated by the
nested loops `for transform_name, train_data in [...]` /
`for batch_size, epoch, lr in hyperparameter_combos`. -/
structure GridPoint where
  transform : String
  batch_size : Nat
  epochs : Nat
  lr : ℚ
deriving DecidableEq, Repr

/-- The metric triple returned by the external `train` routine
(`test_loss`, `test_ham_acc`, `test_zero_one_acc`, each taken at `[-1]`). -/
structure Metrics where
  test_loss : ℚ
  test_ham_acc : ℚ
  test_zero_one_acc : ℚ
deriving DecidableEq, Repr

/-- One row appended to `results` per grid point.  Metric fields are
`Option ℚ`; `none` models the `float('nan')` written on trial failure. -/
structure RunResult where
  transform : String
  batch_size : Nat
  epochs : Nat
  lr : ℚ
  final_test_loss : Option ℚ
  final_test_ham_acc : Option ℚ
  final_test_zero_one_acc : Option ℚ
deriving DecidableEq, Repr

/-! ### The per-trial try/except and the sweep

The notebooks call `train(model=model_*, ...)` on one model object created
once before the grid, so the external training routine both consumes and
mutates model state.  It is embedded as a function
`GridPoint → M → M × Except String Metrics` over an abstract model-state
type `M`: the returned `M` is the mutated-in-place model, and
`Except.error` is a raised exception. -/

/-- The body of the grid loop for one grid point (the `try/except` block of
the hyperparameter-testing cell): on success the metrics are recorded, on
any exception a row with NaN metrics is recorded instead; either way the
mutated model state is carried forward. -/
def run_trial {M : Type _} (trainFn : GridPoint → M → M × Except String Metrics)
    (p : GridPoint) (m : M) : M × RunResult :=
  match trainFn p m with
  | (m', Except.ok r) =>
      (m', ⟨p.transform, p.batch_size, p.epochs, p.lr,
        some r.test_loss, some r.test_ham_acc, some r.test_zero_one_acc⟩)
  | (m', Except.error _) =>
      (m', ⟨p.transform, p.batch_size, p.epochs, p.lr, none, none, none⟩)

/-- The hyperparameter-testing loop: runs `run_trial` on every grid point in
order, threading the single shared model object through all trials and
appending one `RunResult` per point to `results`. -/
def hyperparameter_sweep {M : Type _}
    (trainFn : GridPoint → M → M × Except String Metrics) :
    List GridPoint → M → M × List RunResult
  | [], m => (m, [])
  | p :: rest, m =>
      let step := run_trial trainFn p m
      let tail := hyperparameter_sweep trainFn rest step.1
      (tail.1, step.2 :: tail.2)

theorem hyperparameter_sweep_cons {M : Type _}
    (trainFn : GridPoint → M → M × Except String Metrics)
    (p : GridPoint) (rest : List GridPoint) (m : M) :
    hyperparameter_sweep trainFn (p :: rest) m =
      ((hyperparameter_sweep trainFn rest (run_trial trainFn p m).1).1,
        (run_trial trainFn p m).2 ::
          (hyperparameter_sweep trainFn rest (run_trial trainFn p m).1).2) :=
  rfl

/-- The hyperparameter choice lists of every notebook
(`batch_size = [16, 32, 64]`, `num_epochs = [5, 10]`,
`lrs = [.001, .0001, .01]`). -/
def batch_sizes : List Nat := [16, 32, 64]

def epoch_choices : List Nat := [5, 10]

def lr_choices : List ℚ := [mkRat 1 1000, mkRat 1 10000, mkRat 1 100]

end BeeVision

namespace BeeVision

/-! ### C1: failure tolerance of the sweep -/

theorem sweep_length {M : Type _}
    (trainFn : GridPoint → M → M × Except String Metrics) :
    ∀ (grid : List GridPoint) (m : M),
      ((hyperparameter_sweep trainFn grid m).2).length = grid.length := by
  intro grid
  induction grid with
  | nil => intro m; rfl
  | cons p rest ih =>
      intro m
      rw [hyperparameter_sweep_cons]
      simp [ih]

theorem sweep_points {M : Type _}
    (trainFn : GridPoint → M → M × Except String Metrics) :
    ∀ (grid : List GridPoint) (m : M),
      ((hyperparameter_sweep trainFn grid m).2).map
          (fun r => (r.transform, r.batch_size, r.epochs, r.lr)) =
        grid.map (fun p => (p.transform, p.batch_size, p.epochs, p.lr)) := by
  intro grid
  induction grid with
  | nil => intro m; rfl
  | cons p rest ih =>
      intro m
      rw [hyperparameter_sweep_cons]
      have hp : ((run_trial trainFn p m).2.transform,
          (run_trial trainFn p m).2.batch_size,
          (run_trial trainFn p m).2.epochs,
          (run_trial trainFn p m).2.lr) =
          (p.transform, p.batch_size, p.epochs, p.lr) := by
        unfold run_trial
        rcases h : trainFn p m with ⟨m', res⟩
        cases res <;> simp [h]
      simp only [List.map_cons, ih, hp]

/-- Claim C1: any exception raised by the external training routine is caught
inside the sweep: the trial is recorded as a Run Result with undefined (NaN)
metric values and the sweep continues, so the results sequence has exactly
one row per grid point — completion count equals total grid size — even when
every trial fails, and the rows carry the grid points in order. -/
theorem sweep_failure_tolerant {M : Type _}
    (trainFn : GridPoint → M → M × Except String Metrics)
    (grid : List GridPoint) (m : M) :
    ((hyperparameter_sweep trainFn grid m).2).length = grid.length ∧
    ((hyperparameter_sweep trainFn grid m).2).map
        (fun r => (r.transform, r.batch_size, r.epochs, r.lr)) =
      grid.map (fun p => (p.transform, p.batch_size, p.epochs, p.lr)) ∧
    ((∀ (p : GridPoint) (s : M), ∃ e, (trainFn p s).2 = Except.error e) →
      ∀ r ∈ (hyperparameter_sweep trainFn grid m).2,
        r.final_test_loss = none ∧ r.final_test_ham_acc = none ∧
          r.final_test_zero_one_acc = none) := by
  refine ⟨sweep_length trainFn grid m, sweep_points trainFn grid m, ?_⟩
  intro hfail
  induction grid generalizing m with
  | nil => intro r hr; simp [hyperparameter_sweep] at hr
  | cons p rest ih =>
      intro r hr
      rw [hyperparameter_sweep_cons] at hr
      rcases List.mem_cons.mp hr with h | h
      · obtain ⟨e, he⟩ := hfail p m
        subst h
        unfold run_trial
        rcases htr : trainFn p m with ⟨m', res⟩
        rw [htr] at he
        simp only at he
        subst he
        simp
      · exact ih _ r h

/-- Closed instance of `sweep_failure_tolerant`: an always-failing training
routine over a two-point grid still yields one NaN-metric row per point. -/
theorem sweep_failure_tolerant_witness :
    (([⟨"triv_aug", 16, 5, 0.001⟩, ⟨"d201_transform", 32, 10, 0.01⟩] :
        List GridPoint).length = 2) ∧
    (((hyperparameter_sweep
        (fun _ (m : Nat) => (m + 1, Except.error "CUDA out of memory"))
        [⟨"triv_aug", 16, 5, 0.001⟩, ⟨"d201_transform", 32, 10, 0.01⟩]
        0).2).length = 2 ∧
      ((hyperparameter_sweep
        (fun _ (m : Nat) => (m + 1, Except.error "CUDA out of memory"))
        [⟨"triv_aug", 16, 5, 0.001⟩, ⟨"d201_transform", 32, 10, 0.01⟩]
        0).2).map (fun r => (r.transform, r.batch_size, r.epochs, r.lr)) =
        ([⟨"triv_aug", 16, 5, 0.001⟩, ⟨"d201_transform", 32, 10, 0.01⟩] :
          List GridPoint).map
            (fun p => (p.transform, p.batch_size, p.epochs, p.lr)) ∧
      ∀ r ∈ (hyperparameter_sweep
        (fun _ (m : Nat) => (m + 1, Except.error "CUDA out of memory"))
        [⟨"triv_aug", 16, 5, 0.001⟩, ⟨"d201_transform", 32, 10, 0.01⟩]
        0).2,
        r.final_test_loss = none ∧ r.final_test_ham_acc = none ∧
          r.final_test_zero_one_acc = none) := by
  constructor
  · rfl
  · have h := sweep_failure_tolerant
      (fun _ (m : Nat) => (m + 1, Except.error "CUDA out of memory"))
      [⟨"triv_aug", 16, 5, 0.001⟩, ⟨"d201_transform", 32, 10, 0.01⟩] 0
    exact ⟨h.1, h.2.1, h.2.2 (fun p s => ⟨"CUDA out of memory", rfl⟩)⟩

/-! ### C4: the sweep reuses one mutable model, so trial metrics are
order-dependent

The notebooks construct `model_d201` (resp. `model_eb0`, `model_res18`)
once before the grid and pass the same object to `train` for every trial
without reinitializing its weights, so each trial starts from whatever
weights the previous trials left behind. -/

/-- A training routine whose reported Hamming accuracy depends on the
accumulated model state (here: a counter standing for the weights that the
previous `train` calls left in the shared model object), as the real
`train` does when the same partially-trained model is passed to every
trial. -/
def reused_model_train : GridPoint → Nat → Nat × Except String Metrics :=
  fun _ m => (m + 1, Except.ok ⟨(m : ℚ), (m : ℚ), (m : ℚ)⟩)

/-- Grid point (triv_aug, batch 16, 5 epochs, lr 0.001). -/
def gp_batch16 : GridPoint := ⟨"triv_aug", 16, 5, 0.001⟩

/-- Grid point (triv_aug, batch 32, 5 epochs, lr 0.001). -/
def gp_batch32 : GridPoint := ⟨"triv_aug", 32, 5, 0.001⟩

/-- Claim C4 fails on the code: with the single shared model threaded through
the sweep, the very same grid point `gp_batch16` is recorded with Hamming
accuracy 0 when it runs first and 1 when it runs second, so enumeration
order changes final metric values, not just display order. -/
theorem sweep_metrics_depend_on_order :
    (((hyperparameter_sweep reused_model_train [gp_batch16, gp_batch32] 0).2.filter
        (fun r => r.batch_size == 16)).map RunResult.final_test_ham_acc =
      [some 0]) ∧
    (((hyperparameter_sweep reused_model_train [gp_batch32, gp_batch16] 0).2.filter
        (fun r => r.batch_size == 16)).map RunResult.final_test_ham_acc =
      [some 1]) := by
  constructor <;> decide

end BeeVision

namespace BeeVision

/-! ### C6: grid enumeration is the full cross product -/

/-- The three backbone notebooks. -/
inductive Backbone
  | d201
  | eb0
  | res18
deriving DecidableEq, Repr

/-- The two augmentation-variant names each backbone's grid-search loop
iterates over and records in its Run Results
(`for transform_name, train_data in [("triv_aug", ...), ("<bb>_transform", ...)]`). -/
def grid_transform_names : Backbone → List String
  | Backbone.d201 => ["triv_aug", "d201_transform"]
  | Backbone.eb0 => ["triv_aug", "eb0_transform"]
  | Backbone.res18 => ["triv_aug", "res18_transform"]

/-- The grid: the outer loop over augmentation variants composed with
`itertools.product(batch_size, num_epochs, lrs)`. -/
def enumerate_grid {α β γ δ : Type _} (ts : List α) (bs : List β)
    (es : List γ) (ls : List δ) : List (α × β × γ × δ) :=
  ts ×ˢ (bs ×ˢ (es ×ˢ ls))

/-- Claim C6: enumerating the grid over choice lists of sizes (a, b, c, d)
with pairwise-distinct entries yields exactly a·b·c·d grid points with no
duplicates; with the concrete choices of the notebooks (2 augmentation
variants × 3 batch sizes × 2 epoch counts × 3 learning rates) this is 36
points per backbone. -/
theorem enumerate_grid_card {α β γ δ : Type _}
    (ts : List α) (bs : List β) (es : List γ) (ls : List δ)
    (h1 : ts.Nodup) (h2 : bs.Nodup) (h3 : es.Nodup) (h4 : ls.Nodup) :
    (enumerate_grid ts bs es ls).length =
      ts.length * bs.length * es.length * ls.length ∧
    (enumerate_grid ts bs es ls).Nodup ∧
    (enumerate_grid (grid_transform_names Backbone.d201) batch_sizes
        epoch_choices lr_choices).length = 36 ∧
    (enumerate_grid (grid_transform_names Backbone.d201) batch_sizes
        epoch_choices lr_choices).Nodup := by
  refine ⟨?_, ?_, ?_, ?_⟩
  · simp [enumerate_grid, List.length_product, mul_assoc]
  · exact h1.product (h2.product (h3.product h4))
  · decide
  · decide

/-- Closed instance of `enumerate_grid_card` at the notebooks' concrete
choice lists. -/
theorem enumerate_grid_card_witness :
    ((grid_transform_names Backbone.d201).Nodup ∧ batch_sizes.Nodup ∧
      epoch_choices.Nodup ∧ lr_choices.Nodup) ∧
    ((enumerate_grid (grid_transform_names Backbone.d201) batch_sizes
        epoch_choices lr_choices).length =
      (grid_transform_names Backbone.d201).length * batch_sizes.length *
        epoch_choices.length * lr_choices.length ∧
    (enumerate_grid (grid_transform_names Backbone.d201) batch_sizes
        epoch_choices lr_choices).Nodup ∧
    (enumerate_grid (grid_transform_names Backbone.d201) batch_sizes
        epoch_choices lr_choices).length = 36 ∧
    (enumerate_grid (grid_transform_names Backbone.d201) batch_sizes
        epoch_choices lr_choices).Nodup) :=
  ⟨⟨by decide, by decide, by decide, by decide⟩,
    enumerate_grid_card (grid_transform_names Backbone.d201) batch_sizes
      epoch_choices lr_choices (by decide) (by decide) (by decide) (by decide)⟩

/-! ### C2: best-configuration selection -/

/-- Models `results_df.loc[results_df['final_test_ham_acc'].idxmax()]`: the Run
Result maximizing Hamming accuracy; `idxmax` skips NaN entries (the
filter) and, among several maxima, returns the first. -/
def select_best (results : List RunResult) : Option RunResult :=
  (results.filter fun r => r.final_test_ham_acc.isSome).argmax
    (fun r => r.final_test_ham_acc.getD 0)

/-- The spec's example results: Hamming accuracies 0.80, 0.95, 0.10. -/
def demo_results : List RunResult :=
  [⟨"triv_aug", 16, 5, mkRat 1 1000,
      some (mkRat 1 2), some (mkRat 4 5), some (mkRat 1 10)⟩,
   ⟨"triv_aug", 32, 5, mkRat 1 1000,
      some (mkRat 2 5), some (mkRat 19 20), some (mkRat 1 5)⟩,
   ⟨"d201_transform", 64, 10, mkRat 1 100,
      some (mkRat 3 5), some (mkRat 1 10), some (mkRat 1 20)⟩]

/-- The 0.95 entry of `demo_results`. -/
def demo_best : RunResult :=
  ⟨"triv_aug", 32, 5, mkRat 1 1000,
    some (mkRat 2 5), some (mkRat 19 20), some (mkRat 1 5)⟩

/-- Claim C2: on a results list with at least one defined Hamming accuracy,
`select_best` returns an entry of the list whose Hamming accuracy is
defined and maximal among all defined entries, undefined entries being
ignored; in particular on Hamming accuracies [0.80, 0.95, 0.10] it returns
the 0.95 entry. -/
theorem select_best_max (results : List RunResult)
    (h : ∃ r ∈ results, r.final_test_ham_acc.isSome) :
    (∃ b, select_best results = some b ∧ b ∈ results ∧
      ∃ v, b.final_test_ham_acc = some v ∧
        ∀ r ∈ results, ∀ w, r.final_test_ham_acc = some w → w ≤ v) ∧
    select_best demo_results = some demo_best := by
  constructor
  · obtain ⟨r0, hr0, hs0⟩ := h
    have hr0f : r0 ∈ results.filter fun r => r.final_test_ham_acc.isSome :=
      List.mem_filter.mpr ⟨hr0, hs0⟩
    rcases hb : select_best results with _ | b
    · exfalso
      have : results.filter (fun r => r.final_test_ham_acc.isSome) = [] :=
        List.argmax_eq_none.mp hb
      rw [this] at hr0f
      exact List.not_mem_nil r0 hr0f
    · have hbmem : b ∈ (results.filter fun r => r.final_test_ham_acc.isSome) :=
        List.argmax_mem hb
      obtain ⟨hbr, hbs⟩ := List.mem_filter.mp hbmem
      obtain ⟨v, hv⟩ := Option.isSome_iff_exists.mp hbs
      refine ⟨b, rfl, hbr, v, hv, ?_⟩
      intro r hr w hw
      have hrf : r ∈ results.filter fun r => r.final_test_ham_acc.isSome :=
        List.mem_filter.mpr ⟨hr, by simp [hw]⟩
      have hle := List.le_of_mem_argmax hrf hb
      simpa [hw, hv] using hle
  · decide

/-- Closed instance of `select_best_max` on the spec's example. -/
theorem select_best_max_witness :
    (∃ r ∈ demo_results, r.final_test_ham_acc.isSome) ∧
    ((∃ b, select_best demo_results = some b ∧ b ∈ demo_results ∧
      ∃ v, b.final_test_ham_acc = some v ∧
        ∀ r ∈ demo_results, ∀ w, r.final_test_ham_acc = some w → w ≤ v) ∧
    select_best demo_results = some demo_best) :=
  ⟨by decide, select_best_max demo_results (by decide)⟩

/-! ### C3: the retrain transform guard

After reloading `best_params_<backbone>.json`, the DenseNet and ResNet
notebooks rebuild the training dataset from `best_params['transform']`
behind a guard; the EfficientNet notebook has no such guard.  The DenseNet
guard accepts `'res18_transform'` — copied from the ResNet notebook — while
its own grid records `'d201_transform'`. -/

/-- The DenseNet201 retrain guard: `if best_transform == 'triv_aug': ...
elif best_transform == 'res18_transform': ... else: raise ValueError`. -/
def retrain_guard_d201 (t : String) : Except String String :=
  if t = "triv_aug" then Except.ok "densenet201_triv_aug_trans"
  else if t = "res18_transform" then Except.ok "densenet201_train_datatransform"
  else Except.error ("Unknown transform: " ++ t)

/-- The ResNet-18 retrain guard: same shape, accepting `'triv_aug'` and
`'res18_transform'`. -/
def retrain_guard_res18 (t : String) : Except String String :=
  if t = "triv_aug" then Except.ok "res18_triv_aug_trans"
  else if t = "res18_transform" then Except.ok "res18_train_datatransform"
  else Except.error ("Unknown transform: " ++ t)

/-- The EfficientNet notebook's retrain cell never reads
`best_params['transform']`: it calls `train` on the `train_dataloader`
object left over from the last grid iteration, so no guard runs there. -/
def eb0_retrain_reads_transform : Bool := false

/-- Claim C3 fails on the code: `'d201_transform'` is one of the two names
the DenseNet grid search records, yet the DenseNet retrain guard rejects
it with the "unknown transform" error (it accepts `'res18_transform'`
instead, which that grid never records); the ResNet guard does accept its
own grid's name, and the EfficientNet retrain step checks nothing at all. -/
theorem retrain_guard_rejects_own_grid_name :
    "d201_transform" ∈ grid_transform_names Backbone.d201 ∧
    retrain_guard_d201 "d201_transform" =
      Except.error "Unknown transform: d201_transform" ∧
    "res18_transform" ∉ grid_transform_names Backbone.d201 ∧
    (retrain_guard_d201 "res18_transform").isOk = true ∧
    retrain_guard_res18 "res18_transform" =
      Except.ok "res18_train_datatransform" ∧
    eb0_retrain_reads_transform = false :=
  ⟨by decide, by rfl, by decide, by rfl, by rfl, rfl⟩

/-! ### C9: persisted artifact names -/

/-- The base name of the trial-results CSV each notebook writes.  The
EfficientNet notebook writes `"hyperparameter_testing_d201.csv"` — the
DenseNet name — although its own markdown announces a file named for
EfficientNet-B0. -/
def csv_file_name : Backbone → String
  | Backbone.d201 => "hyperparameter_testing_d201.csv"
  | Backbone.eb0 => "hyperparameter_testing_d201.csv"
  | Backbone.res18 => "hyperparameter_testing_Res18.csv"

/-- The Best Configuration JSON file each notebook writes. -/
def best_params_file_name : Backbone → String
  | Backbone.d201 => "best_params_d201.json"
  | Backbone.eb0 => "best_params_eb0.json"
  | Backbone.res18 => "best_params_res18.json"

/-- The held-out test metrics JSON file each notebook writes. -/
def test_results_file_name : Backbone → String
  | Backbone.d201 => "test_results_d201.json"
  | Backbone.eb0 => "test_results_eb0.json"
  | Backbone.res18 => "test_results_res18.json"

/-- Field names of one trial-results row — identical dict literals in all
three notebooks. -/
def results_row_fields (_ : Backbone) : List String :=
  ["transform", "batch_size", "epochs", "lr", "final_test_loss",
   "final_test_ham_acc", "final_test_zero_one_acc"]

/-- Keys of the held-out `test_results_*.json` document — identical in all
three notebooks. -/
def test_results_fields (_ : Backbone) : List String :=
  ["Test Loss", "Test Hamming Accuracy", "Test Zero-One Accuracy"]

/-- Claim C9 fails on the code: the EfficientNet notebook's trial CSV is not
named for its backbone — it reuses the DenseNet file name, colliding with
the DenseNet artifact — while the JSON artifacts are backbone-named and the
field names do match exactly across the three variants. -/
theorem eb0_csv_name_collides :
    csv_file_name Backbone.eb0 = "hyperparameter_testing_d201.csv" ∧
    csv_file_name Backbone.eb0 = csv_file_name Backbone.d201 ∧
    csv_file_name Backbone.eb0 ≠ "hyperparameter_testing_eb0.csv" ∧
    best_params_file_name Backbone.eb0 = "best_params_eb0.json" ∧
    test_results_file_name Backbone.eb0 = "test_results_eb0.json" ∧
    results_row_fields Backbone.d201 = results_row_fields Backbone.eb0 ∧
    results_row_fields Backbone.eb0 = results_row_fields Backbone.res18 ∧
    test_results_fields Backbone.d201 = test_results_fields Backbone.eb0 ∧
    test_results_fields Backbone.eb0 = test_results_fields Backbone.res18 := by
  refine ⟨rfl, rfl, by decide, rfl, rfl, rfl, rfl, rfl, rfl⟩

end BeeVision

namespace BeeVision

/-! ### C7: persistence of the Best Configuration

`json.dump(best_params, f)` / `json.load(f)` on a flat dict of strings,
ints and floats.  Python's json writes ints as ints and floats via `repr`,
which round-trips them exactly, so the file is modelled as the flat
key-value document itself. -/

/-- A value of the flat JSON configuration document. -/
inductive JValue
  | str (s : String)
  | int (n : Int)
  | num (q : ℚ)
deriving DecidableEq, Repr

/-- The Best Configuration record: the fields of the `best_params` dict. -/
structure BestConfig where
  transform : String
  batch_size : Nat
  epochs : Nat
  lr : ℚ
  final_test_loss : ℚ
  final_test_ham_acc : ℚ
  final_test_zero_one_acc : ℚ
deriving DecidableEq, Repr

/-- Models `json.dump(best_params, f)`: the persisted document, in the key order
of the `best_params` dict literal. -/
def persist_config (c : BestConfig) : List (String × JValue) :=
  [("transform", JValue.str c.transform),
   ("batch_size", JValue.int c.batch_size),
   ("epochs", JValue.int c.epochs),
   ("lr", JValue.num c.lr),
   ("final_test_loss", JValue.num c.final_test_loss),
   ("final_test_ham_acc", JValue.num c.final_test_ham_acc),
   ("final_test_zero_one_acc", JValue.num c.final_test_zero_one_acc)]

/-- Models `json.load(f)` followed by the notebooks' field reads
(`best_params['transform']`, `best_params['batch_size']`, ...). -/
def load_config (doc : List (String × JValue)) : Option BestConfig :=
  match doc.lookup "transform", doc.lookup "batch_size", doc.lookup "epochs",
      doc.lookup "lr", doc.lookup "final_test_loss",
      doc.lookup "final_test_ham_acc", doc.lookup "final_test_zero_one_acc" with
  | some (JValue.str t), some (JValue.int b), some (JValue.int e),
      some (JValue.num l), some (JValue.num fl), some (JValue.num fh),
      some (JValue.num fz) => some ⟨t, b.toNat, e.toNat, l, fl, fh, fz⟩
  | _, _, _, _, _, _, _ => none

/-- Claim C7: persisting a Best Configuration and loading it back reproduces
the record field-for-field; the persisted field set is exactly {transform,
batch_size, epochs, lr, final_test_loss, final_test_ham_acc,
final_test_zero_one_acc}; and the reloaded transform selects the same
augmentation branch of the retrain guard as the original. -/
theorem persist_load_roundtrip (c : BestConfig) :
    load_config (persist_config c) = some c ∧
    (persist_config c).map Prod.fst =
      ["transform", "batch_size", "epochs", "lr", "final_test_loss",
       "final_test_ham_acc", "final_test_zero_one_acc"] ∧
    (load_config (persist_config c)).map
        (fun c' => retrain_guard_res18 c'.transform) =
      some (retrain_guard_res18 c.transform) := by
  have hload : load_config (persist_config c) = some c := by
    simp [load_config, persist_config, List.lookup]
  exact ⟨hload, rfl, by rw [hload]; rfl⟩

end BeeVision

namespace BeeVision

/-! ### C8: cleaning the annotation rows

`pd.to_numeric(df[col], errors='coerce')` over the 15 label columns
followed by `df.dropna(subset=df.columns[:16])`.  `read_csv` holds an
empty cell as NaN; note that the `dropna` subset is columns 0..15, i.e.
the filename column as well as the 15 label columns. -/

/-- One raw annotation row: the filename cell (empty string for an empty
cell) and the 15 raw label cells. -/
structure RawRecord where
  filename : String
  raw : List String
deriving DecidableEq, Repr

/-- Nonempty all-digit prefix-accumulating parser for `parseNum`. -/
def parseDigits (cs : List Char) : Option Nat :=
  if cs.isEmpty then none
  else
    cs.foldl
      (fun acc c =>
        acc.bind fun n => if c.isDigit then some (n * 10 + (c.toNat - 48)) else none)
      (some 0)

/-- Models `pd.to_numeric(cell, errors='coerce')` on one raw cell: an optionally
signed decimal literal parses to its exact rational value, anything else —
in particular the empty cell — coerces to NaN (`none`). -/
def parseNum (s : String) : Option ℚ :=
  let split :=
    match s.toList with
    | '-' :: rest => (true, rest)
    | cs => (false, cs)
  let mag : Option ℚ :=
    match split.2.splitOn '.' with
    | [ip] => (parseDigits ip).map (fun n => (n : ℚ))
    | [ip, fp] =>
        if ip.isEmpty && fp.isEmpty then none
        else
          match (if ip.isEmpty then some 0 else parseDigits ip),
              (if fp.isEmpty then some 0 else parseDigits fp) with
          | some i, some f => some ((i : ℚ) + (f : ℚ) / (10 : ℚ) ^ fp.length)
          | _, _ => none
    | _ => none
  mag.map (fun q => if split.1 then -q else q)

/-- Whether `dropna(subset=df.columns[:16])` keeps the row: the subset
covers the filename column and the 15 label columns, so the row survives
iff the filename cell is nonempty and every label cell parses numeric. -/
def keep_row (r : RawRecord) : Bool :=
  (r.filename != "") && r.raw.all (fun v => (parseNum v).isSome)

/-- The dataset-cleaning cell: rows failing `keep_row` are silently
filtered out; no error path exists. -/
def load_dataset (rows : List RawRecord) : List RawRecord :=
  rows.filter keep_row

/-- A row whose filename cell is empty but whose 15 label cells are all
numeric. -/
def orphan_row : RawRecord :=
  ⟨"", ["1", "0", "1", "0", "1", "0", "1", "0", "1", "0", "1", "0", "1", "0", "1"]⟩

/-- Claim C8 as stated is false: `orphan_row` has 15 label values that all
parse as numeric, yet it is excluded from the dataset, because the
`dropna` subset also covers the filename column. -/
theorem dropna_drops_row_with_numeric_labels :
    (orphan_row.raw.length = 15 ∧ ∀ v ∈ orphan_row.raw, (parseNum v).isSome) ∧
    load_dataset [orphan_row] = [] := by decide

/-- Claim C8 amended: a row is excluded from the dataset iff at least one
of its 15 raw label values fails to parse as numeric **or its filename
cell is empty**; exclusion is silent (the output is just the sublist of
surviving rows, no error value exists), and every remaining record carries
15 numeric label values. -/
theorem load_dataset_drop_iff (rows : List RawRecord) (r : RawRecord)
    (hr : r ∈ rows) (hlen : ∀ s ∈ rows, s.raw.length = 15) :
    (r ∉ load_dataset rows ↔
      (r.filename = "" ∨ ∃ v ∈ r.raw, parseNum v = none)) ∧
    (load_dataset rows).Sublist rows ∧
    (∀ s ∈ load_dataset rows,
      s.raw.length = 15 ∧ ∀ v ∈ s.raw, (parseNum v).isSome) := by
  have hkeep : ∀ s : RawRecord,
      keep_row s = true ↔
        (s.filename ≠ "" ∧ ∀ v ∈ s.raw, (parseNum v).isSome) := by
    intro s
    simp [keep_row, List.all_eq_true]
  refine ⟨?_, List.filter_sublist rows, ?_⟩
  · constructor
    · intro hnot
      by_contra hcon
      push_neg at hcon
      obtain ⟨hfn, hvals⟩ := hcon
      refine hnot (List.mem_filter.mpr ⟨hr, (hkeep r).mpr ⟨hfn, ?_⟩⟩)
      intro v hv
      rcases hs : parseNum v with _ | q
      · exact absurd hs (hvals v hv)
      · simp
    · intro hbad hmem
      obtain ⟨hfn, hvals⟩ := (hkeep r).mp (List.mem_filter.mp hmem).2
      rcases hbad with h | ⟨v, hv, hnone⟩
      · exact hfn h
      · have := hvals v hv
        rw [hnone] at this
        exact Bool.false_ne_true this
  · intro s hs
    have hmem := List.mem_filter.mp hs
    exact ⟨hlen s hmem.1, ((hkeep s).mp hmem.2).2⟩

/-- A well-formed row: nonempty filename, 15 numeric label cells. -/
def good_row : RawRecord :=
  ⟨"hive1.jpg",
    ["1", "0", "0", "1", "1", "0", "1", "0", "0", "1", "1", "0", "0", "1", "1"]⟩

/-- Closed instance of `load_dataset_drop_iff` at a concrete dataset. -/
theorem load_dataset_drop_iff_witness :
    (good_row ∈ [good_row, orphan_row] ∧
      ∀ s ∈ [good_row, orphan_row], s.raw.length = 15) ∧
    ((good_row ∉ load_dataset [good_row, orphan_row] ↔
      (good_row.filename = "" ∨ ∃ v ∈ good_row.raw, parseNum v = none)) ∧
    (load_dataset [good_row, orphan_row]).Sublist [good_row, orphan_row] ∧
    (∀ s ∈ load_dataset [good_row, orphan_row],
      s.raw.length = 15 ∧ ∀ v ∈ s.raw, (parseNum v).isSome)) :=
  ⟨⟨by decide, by decide⟩,
    load_dataset_drop_iff [good_row, orphan_row] good_row (by decide) (by decide)⟩

end BeeVision

namespace BeeVision

/-! ### C5: the 80/10/10 split

`train_test_split(images, labels, test_size=1/10, random_state=seed)`
followed by `train_test_split(X_train_val, y_train_val, test_size=1/9,
random_state=seed)`.  With a float `test_size`, sklearn draws
`ceil(n * test_size)` examples for the held-out part after a seeded
shuffle. -/

/-- A linear congruential generator driving the modelled shuffle. -/
def lcg (s : Nat) : Nat := (1103515245 * s + 12345) % 2147483648

/-- Fuel-indexed Fisher–Yates-style draw: repeatedly pick the
seed-determined position and move its element to the front. -/
def shuffleAux {α : Type _} : Nat → Nat → List α → List α
  | _, 0, l => l
  | _, _ + 1, [] => []
  | s, fuel + 1, x :: xs =>
      let j := s % (x :: xs).length
      (x :: xs).getD j x :: shuffleAux (lcg s) fuel ((x :: xs).eraseIdx j)

/-- Modelled from the spec: the seeded random permutation inside sklearn's
`train_test_split` (external to the repository).  The spec requires only a
deterministic seeded shuffle ("deterministic seeded random partition");
this realizes it with an LCG-driven draw. -/
def seededShuffle {α : Type _} (s : Nat) (l : List α) : List α :=
  shuffleAux s l.length l

theorem getD_cons_eraseIdx_perm {α : Type _} :
    ∀ (l : List α) (j : Nat) (d : α), j < l.length →
      (l.getD j d :: l.eraseIdx j).Perm l
  | [], j, _, h => absurd h (by simp)
  | x :: xs, 0, d, _ => by simp
  | x :: xs, j + 1, d, h => by
      have hj : j < xs.length := by
        simpa using Nat.lt_of_succ_lt_succ h
      have ih := getD_cons_eraseIdx_perm xs j d hj
      show (xs.getD j d :: x :: xs.eraseIdx j).Perm (x :: xs)
      exact (List.Perm.swap x (xs.getD j d) (xs.eraseIdx j)).trans (ih.cons x)

theorem shuffleAux_perm {α : Type _} :
    ∀ (fuel : Nat) (s : Nat) (l : List α), l.length ≤ fuel →
      (shuffleAux s fuel l).Perm l
  | 0, _, l, _ => List.Perm.refl l
  | _ + 1, _, [], _ => List.Perm.refl []
  | fuel + 1, s, x :: xs, h => by
      have hj : s % (x :: xs).length < (x :: xs).length :=
        Nat.mod_lt _ (by simp)
      have hlen : ((x :: xs).eraseIdx (s % (x :: xs).length)).length ≤ fuel := by
        rw [List.length_eraseIdx_of_lt hj]
        simp only [List.length_cons] at h ⊢
        omega
      have ih := shuffleAux_perm fuel (lcg s)
        ((x :: xs).eraseIdx (s % (x :: xs).length)) hlen
      show ((x :: xs).getD (s % (x :: xs).length) x ::
          shuffleAux (lcg s) fuel
            ((x :: xs).eraseIdx (s % (x :: xs).length))).Perm (x :: xs)
      exact (ih.cons _).trans (getD_cons_eraseIdx_perm _ _ _ hj)

theorem seededShuffle_perm {α : Type _} (s : Nat) (l : List α) :
    (seededShuffle s l).Perm l :=
  shuffleAux_perm l.length s l (Nat.le_refl _)

/-- Computes `ceil(n * 1/10)`: the held-out count of the first split. -/
def test_ratio_count (n : Nat) : Nat := (n + 9) / 10

/-- Computes `ceil(m * 1/9)`: the held-out count of the second split. -/
def val_ratio_count (m : Nat) : Nat := (m + 8) / 9

/-- The test part of the first `train_test_split` call. -/
def split_test {α β : Type _} (images : List α) (labels : List β)
    (seed : Nat) : List (α × β) :=
  let pairs := images.zip labels
  (seededShuffle seed pairs).take (test_ratio_count pairs.length)

/-- The train+val remainder of the first `train_test_split` call. -/
def split_trainval {α β : Type _} (images : List α) (labels : List β)
    (seed : Nat) : List (α × β) :=
  let pairs := images.zip labels
  (seededShuffle seed pairs).drop (test_ratio_count pairs.length)

/-- The validation part of the second `train_test_split` call. -/
def split_val {α β : Type _} (images : List α) (labels : List β)
    (seed : Nat) : List (α × β) :=
  (seededShuffle seed (split_trainval images labels seed)).take
    (val_ratio_count (split_trainval images labels seed).length)

/-- The training part of the second `train_test_split` call. -/
def split_train {α β : Type _} (images : List α) (labels : List β)
    (seed : Nat) : List (α × β) :=
  (seededShuffle seed (split_trainval images labels seed)).drop
    (val_ratio_count (split_trainval images labels seed).length)

/-- The two sequential `train_test_split` calls: 1/10 held out as test,
then 1/9 of the remainder held out as validation. -/
def split {α β : Type _} (images : List α) (labels : List β) (seed : Nat) :
    List (α × β) × List (α × β) × List (α × β) :=
  (split_train images labels seed, split_val images labels seed,
    split_test images labels seed)

theorem split_sum_length {α β : Type _} (images : List α) (labels : List β)
    (seed : Nat) :
    (split images labels seed).1.length +
      (split images labels seed).2.1.length +
      (split images labels seed).2.2.length = (images.zip labels).length := by
  have htd2 := congrArg List.length
    (List.take_append_drop (val_ratio_count (split_trainval images labels seed).length)
      (seededShuffle seed (split_trainval images labels seed)))
  have htd1 := congrArg List.length
    (List.take_append_drop (test_ratio_count (images.zip labels).length)
      (seededShuffle seed (images.zip labels)))
  rw [List.length_append] at htd2 htd1
  have hp2 := (seededShuffle_perm seed (split_trainval images labels seed)).length_eq
  have hp1 := (seededShuffle_perm seed (images.zip labels)).length_eq
  have htv : (split_trainval images labels seed).length =
      (images.zip labels).length -
        test_ratio_count (images.zip labels).length := by
    rw [split_trainval]
    simp [hp1]
  show (split_train images labels seed).length +
      (split_val images labels seed).length +
      (split_test images labels seed).length = _
  rw [split_train, split_val, split_test]
  simp only [List.length_take, List.length_drop] at htd2 htd1 ⊢
  omega

theorem split_test_length {α β : Type _} (images : List α) (labels : List β)
    (seed : Nat) :
    (split_test images labels seed).length =
      min (test_ratio_count (images.zip labels).length)
        (images.zip labels).length := by
  rw [split_test]
  simp [(seededShuffle_perm seed (images.zip labels)).length_eq]

theorem split_trainval_length {α β : Type _} (images : List α)
    (labels : List β) (seed : Nat) :
    (split_trainval images labels seed).length =
      (images.zip labels).length -
        test_ratio_count (images.zip labels).length := by
  rw [split_trainval]
  simp [(seededShuffle_perm seed (images.zip labels)).length_eq]

theorem split_val_length {α β : Type _} (images : List α) (labels : List β)
    (seed : Nat) :
    (split_val images labels seed).length =
      min (val_ratio_count (split_trainval images labels seed).length)
        (split_trainval images labels seed).length := by
  rw [split_val]
  simp [(seededShuffle_perm seed (split_trainval images labels seed)).length_eq]

/-- Claim C5: for parallel lists of length N and any seed, `split` returns
three pairwise-disjoint sequences (train, validation, test) whose sizes
sum to N, with test and validation sizes within ±1 of N/10 each (computed
as a 1/10 split followed by a 1/9 split of the remainder), and two calls
with the same seed produce identical partitions. -/
theorem split_spec {α β : Type _} (images : List α) (labels : List β)
    (seed : Nat) (hlen : images.length = labels.length)
    (hnd : (images.zip labels).Nodup) :
    ((split images labels seed).1.length +
        (split images labels seed).2.1.length +
        (split images labels seed).2.2.length = images.length) ∧
    (∀ x ∈ (split images labels seed).1, x ∉ (split images labels seed).2.1) ∧
    (∀ x ∈ (split images labels seed).1, x ∉ (split images labels seed).2.2) ∧
    (∀ x ∈ (split images labels seed).2.1, x ∉ (split images labels seed).2.2) ∧
    (images.length / 10 ≤ (split images labels seed).2.2.length ∧
      (split images labels seed).2.2.length ≤ images.length / 10 + 1) ∧
    (images.length / 10 ≤ (split images labels seed).2.1.length + 1 ∧
      (split images labels seed).2.1.length ≤ images.length / 10 + 1) ∧
    (∀ seed', seed' = seed →
      split images labels seed' = split images labels seed) := by
  have hn : (images.zip labels).length = images.length := by
    rw [List.length_zip, hlen, Nat.min_self]
  have hsum := split_sum_length images labels seed
  rw [hn] at hsum
  have hp1 := seededShuffle_perm seed (images.zip labels)
  have hnd1 : (seededShuffle seed (images.zip labels)).Nodup :=
    hp1.nodup_iff.mpr hnd
  have hdisj1 := List.disjoint_take_drop (m := test_ratio_count
    (images.zip labels).length) hnd1
    (Nat.le_refl (test_ratio_count (images.zip labels).length))
  have hndtv : (split_trainval images labels seed).Nodup :=
    List.Nodup.sublist (List.drop_sublist _ _) hnd1
  have hp2 := seededShuffle_perm seed (split_trainval images labels seed)
  have hnd2 : (seededShuffle seed (split_trainval images labels seed)).Nodup :=
    hp2.nodup_iff.mpr hndtv
  have hdisj2 := List.disjoint_take_drop (m := val_ratio_count
    (split_trainval images labels seed).length) hnd2
    (Nat.le_refl (val_ratio_count (split_trainval images labels seed).length))
  have hmem_tr : ∀ x ∈ (split images labels seed).1,
      x ∈ split_trainval images labels seed := by
    intro x hx
    exact hp2.mem_iff.mp (List.drop_subset _ _ hx)
  have hmem_va : ∀ x ∈ (split images labels seed).2.1,
      x ∈ split_trainval images labels seed := by
    intro x hx
    exact hp2.mem_iff.mp (List.take_subset _ _ hx)
  refine ⟨hsum, ?_, ?_, ?_, ?_, ?_, fun s' h => by rw [h]⟩
  · intro x hx hv
    exact hdisj2 hv hx
  · intro x hx ht
    exact hdisj1 ht (hmem_tr x hx)
  · intro x hx ht
    exact hdisj1 ht (hmem_va x hx)
  · have := split_test_length images labels seed
    rw [hn] at this
    show images.length / 10 ≤ (split_test images labels seed).length ∧
      (split_test images labels seed).length ≤ images.length / 10 + 1
    rw [this, test_ratio_count]
    omega
  · have hv := split_val_length images labels seed
    have htv := split_trainval_length images labels seed
    rw [hn] at htv
    show images.length / 10 ≤ (split_val images labels seed).length + 1 ∧
      (split_val images labels seed).length ≤ images.length / 10 + 1
    rw [hv, htv, val_ratio_count, test_ratio_count]
    omega

/-- Closed instance of `split_spec`: a 12-example dataset splits 10/1/1
deterministically. -/
theorem split_spec_witness :
    ((["a", "b", "c", "d", "e", "f", "g", "h", "i", "j", "k", "l"] :
        List String).length =
      ([0, 1, 2, 3, 4, 5, 6, 7, 8, 9, 10, 11] : List Nat).length ∧
      ((["a", "b", "c", "d", "e", "f", "g", "h", "i", "j", "k", "l"] :
        List String).zip ([0, 1, 2, 3, 4, 5, 6, 7, 8, 9, 10, 11] :
        List Nat)).Nodup) ∧
    ((split ["a", "b", "c", "d", "e", "f", "g", "h", "i", "j", "k", "l"]
        [0, 1, 2, 3, 4, 5, 6, 7, 8, 9, 10, 11] 42).1.length +
      (split ["a", "b", "c", "d", "e", "f", "g", "h", "i", "j", "k", "l"]
        [0, 1, 2, 3, 4, 5, 6, 7, 8, 9, 10, 11] 42).2.1.length +
      (split ["a", "b", "c", "d", "e", "f", "g", "h", "i", "j", "k", "l"]
        [0, 1, 2, 3, 4, 5, 6, 7, 8, 9, 10, 11] 42).2.2.length = 12) ∧
    (∀ x ∈ (split ["a", "b", "c", "d", "e", "f", "g", "h", "i", "j", "k", "l"]
        [0, 1, 2, 3, 4, 5, 6, 7, 8, 9, 10, 11] 42).1,
      x ∉ (split ["a", "b", "c", "d", "e", "f", "g", "h", "i", "j", "k", "l"]
        [0, 1, 2, 3, 4, 5, 6, 7, 8, 9, 10, 11] 42).2.1) := by
  have h := split_spec
    ["a", "b", "c", "d", "e", "f", "g", "h", "i", "j", "k", "l"]
    [0, 1, 2, 3, 4, 5, 6, 7, 8, 9, 10, 11] 42 (by decide) (by decide)
  exact ⟨⟨by decide, by decide⟩, h.1, h.2.1⟩

/-! ### C10: the EfficientNet notebook truncates its data to 5 rows -/

/-- The EfficientNet notebook's loading cell: `df = pd.read_csv(csv_path)`
immediately followed by `df = df[:5]`, then the same cleaning as the other
notebooks.  The truncation happens before label extraction and splitting. -/
def eb0_load_dataset (rows : List RawRecord) : List RawRecord :=
  load_dataset (rows.take 5)

/-- The EfficientNet pipeline from raw annotation rows to the three
splits: truncate to 5 rows, clean, extract the parallel filename/label
lists, and split 80/10/10. -/
def eb0_split (rows : List RawRecord) (seed : Nat) :
    List (String × List String) × List (String × List String) ×
      List (String × List String) :=
  split ((eb0_load_dataset rows).map RawRecord.filename)
    ((eb0_load_dataset rows).map RawRecord.raw) seed

/-- Claim C10: because of `df = df[:5]`, the EfficientNet dataset has at
most 5 examples regardless of the size of the annotations file, and the
train, validation, and test splits together contain exactly the dataset's
examples — hence at most 5. -/
theorem eb0_splits_at_most_five (rows : List RawRecord) (seed : Nat) :
    (eb0_load_dataset rows).length ≤ 5 ∧
    ((eb0_split rows seed).1.length + (eb0_split rows seed).2.1.length +
        (eb0_split rows seed).2.2.length = (eb0_load_dataset rows).length) ∧
    (eb0_split rows seed).1.length + (eb0_split rows seed).2.1.length +
        (eb0_split rows seed).2.2.length ≤ 5 := by
  have h5 : (eb0_load_dataset rows).length ≤ 5 := by
    rw [eb0_load_dataset, load_dataset]
    calc ((rows.take 5).filter keep_row).length
        ≤ (rows.take 5).length := List.length_filter_le _ _
      _ ≤ 5 := List.length_take_le _ _
  have hsum := split_sum_length
    ((eb0_load_dataset rows).map RawRecord.filename)
    ((eb0_load_dataset rows).map RawRecord.raw) seed
  have hz : (((eb0_load_dataset rows).map RawRecord.filename).zip
      ((eb0_load_dataset rows).map RawRecord.raw)).length =
      (eb0_load_dataset rows).length := by
    rw [List.length_zip]
    simp
  rw [hz] at hsum
  refine ⟨h5, ?_, ?_⟩
  · rw [eb0_split]
    exact hsum
  · rw [eb0_split]
    omega

end BeeVision
